import Mathlib

/-!
# Verification of the template-based extraction engine (`TemplateService` /
`ProcessingService`)

Shallow embedding of `src/backend/app/services/template_service.py` and the
template-vs-LLM decision branch of
`src/backend/app/services/processing_service.py`.

Modelling conventions:

* Python floats are modelled as rationals (`ℚ`).  Every constant appearing in
  the code (0.4, 0.3, 0.9, 0.8, 0.6, 0.5) is exactly representable, and every
  comparison proved below holds with a wide margin, so binary-float rounding
  is immaterial.
* Python strings are modelled as `List Char` (obtained from Lean `String`
  via `String.toList`); the regular expressions appearing literally in the
  source are compiled by hand into character-level matchers that reproduce
  Python's leftmost-search / greedy-with-backtracking semantics for those
  concrete patterns.
* The *vendor pattern* is an arbitrary user-supplied regex fed to
  `re.search`; its semantics are modelled as an uninterpreted match oracle
  `String → String → Bool` passed as a parameter.  All theorems below hold
  for every such oracle.
* `hashlib.md5(json.dumps(structure, sort_keys=True))` is a deterministic
  injective-intent serialisation of the structural record; the layout
  signature is modelled as the structural record itself (equal records give
  equal digests; the claims are settled at the record level).
* The database is modelled by explicit state passing: the set of stored
  templates is a `List Template` argument, and `update_template_stats`
  becomes a pure function on the template record.
* CPython materialises `list(set(...))` with unspecified iteration order; the
  model deduplicates keeping first occurrences.  All claims are settled on
  inputs where each deduplicated list has at most one element, so the order
  is immaterial.
-/

namespace Email2KG

/-! ## Character helpers (ASCII, as used by the source's regexes) -/

/-- Python `\s` (ASCII range, the documents in question are ASCII). -/
def isWs (c : Char) : Bool :=
  c = ' ' || c = '\t' || c = '\n' || c = '\x0d' || c = '\x0c' || c = '\x0b'

def isDigitCh (c : Char) : Bool :=
  '0' ≤ c && c ≤ '9'

def isAlphaCh (c : Char) : Bool :=
  ('a' ≤ c && c ≤ 'z') || ('A' ≤ c && c ≤ 'Z')

def isUpperCh (c : Char) : Bool :=
  'A' ≤ c && c ≤ 'Z'

/-- ASCII lower-casing, as `str.lower` / `re.IGNORECASE` behave on ASCII. -/
def lowerCh (c : Char) : Char :=
  if isUpperCh c then Char.ofNat (c.toNat + 32) else c

def upperCh (c : Char) : Char :=
  if 'a' ≤ c && c ≤ 'z' then Char.ofNat (c.toNat - 32) else c

/-- Split at a predicate: longest prefix satisfying `p`, and the rest. -/
def spanP (p : Char → Bool) : List Char → List Char × List Char
  | [] => ([], [])
  | c :: cs =>
    if p c then
      let r := spanP p cs
      (c :: r.1, r.2)
    else ([], c :: cs)

/-- Python `str.strip()`: drop ASCII whitespace from both ends. -/
def stripPy (cs : List Char) : List Char :=
  ((cs.dropWhile isWs).reverse.dropWhile isWs).reverse

/-- Python `'\n'.split` behaviour: `''.split('\n') == ['']`. -/
def splitNl : List Char → List (List Char)
  | [] => [[]]
  | c :: cs =>
    let r := splitNl cs
    if c = '\n' then [] :: r
    else
      match r with
      | [] => [[c]]
      | h :: t => (c :: h) :: t

theorem splitNl_ne_nil (cs : List Char) : splitNl cs ≠ [] := by
  induction cs with
  | nil => simp [splitNl]
  | cons c cs ih =>
    simp only [splitNl]
    split
    · simp
    · cases h : splitNl cs with
      | nil => exact absurd h ih
      | cons a t => simp

/-- Case-insensitive match of the literal `label` as a prefix of `cs`;
returns the remaining suffix on success (Python `re.escape(label)` with
`re.IGNORECASE`). -/
def matchCaseless : List Char → List Char → Option (List Char)
  | [], cs => some cs
  | _ :: _, [] => none
  | l :: ls, c :: cs =>
    if lowerCh l = lowerCh c then matchCaseless ls cs else none

/-- Case-insensitive substring containment (Python `needle in text` after
both are lower-cased by the caller; here we lower on the fly). -/
def containsCaseless (needle : List Char) : List Char → Bool
  | [] => (matchCaseless needle []).isSome
  | c :: cs => (matchCaseless needle (c :: cs)).isSome || containsCaseless needle cs

/-- First element of a list on which `f` yields `some`. -/
def firstSome {α β : Type} (f : α → Option β) : List α → Option β
  | [] => none
  | a :: as =>
    match f a with
    | some b => some b
    | none => firstSome f as

/-- Look up a key in an association list (Python `dict.get`). -/
def lookupKV {α : Type} : List (String × α) → String → Option α
  | [], _ => none
  | (k, v) :: rest, key => if k = key then some v else lookupKV rest key

/-- Python `dict[k] = v`: overwrite in place if the key exists (keeping its
original position), otherwise append. -/
def insertKV {α : Type} : List (String × α) → String → α → List (String × α)
  | [], key, v => [(key, v)]
  | (k, w) :: rest, key, v =>
    if k = key then (k, v) :: rest else (k, w) :: insertKV rest key v

/-! ## Layout signature generator (`_generate_layout_signature`) -/

/-- Pattern `\$[\d,]+\.?\d*` found somewhere: a `$` immediately followed by a digit
or comma (the rest of the pattern is optional). -/
def hasDollarAmount : List Char → Bool
  | [] => false
  | [_] => false
  | c :: d :: rest =>
    (c = '$' && (isDigitCh d || d = ',')) || hasDollarAmount (d :: rest)

/-- Take exactly `n` digits, returning the digits and the rest. -/
def takeDigits : Nat → List Char → Option (List Char × List Char)
  | 0, cs => some ([], cs)
  | _ + 1, [] => none
  | n + 1, c :: cs =>
    if isDigitCh c then
      match takeDigits n cs with
      | some (ds, rest) => some (c :: ds, rest)
      | none => none
    else none

def isDateSep (c : Char) : Bool := c = '/' || c = '-'

/-- Attempt the date token shape (1-2 digits, slash-or-dash, 1-2 digits, slash-or-dash, 2-4 digits) at this exact position, with the
regex engine's greedy-then-backtrack order (`{1,2}` tries 2 digits first);
returns the matched token. -/
def dateTokenAt (cs : List Char) : Option (List Char) :=
  firstSome
    (fun k1 =>
      match takeDigits k1 cs with
      | none => none
      | some (d1, r1) =>
        match r1 with
        | [] => none
        | s1 :: r2 =>
          if isDateSep s1 then
            firstSome
              (fun k2 =>
                match takeDigits k2 r2 with
                | none => none
                | some (d2, r3) =>
                  match r3 with
                  | [] => none
                  | s2 :: r4 =>
                    if isDateSep s2 then
                      let (ds, _) := spanP isDigitCh r4
                      if 2 ≤ ds.length then
                        some (d1 ++ s1 :: d2 ++ s2 :: ds.take 4)
                      else none
                    else none)
              [2, 1]
          else none)
    [2, 1]

/-- Date token shape found at some position in the text. -/
def hasDateToken : List Char → Bool
  | [] => (dateTokenAt []).isSome
  | c :: cs => (dateTokenAt (c :: cs)).isSome || hasDateToken cs

/-- The structural record the source serialises and hashes.  The source
computes `md5(json.dumps(record, sort_keys=True))`; equal records yield
equal digests, and the canonical JSON of distinct records is distinct, so
the claims are settled on the record itself. -/
structure LayoutStructure where
  total_lines : Nat
  avg_line_length : ℚ
  has_tables : Bool
  has_amounts : Bool
  has_dates : Bool
  deriving DecidableEq, Repr

/-- Embedding of `_generate_layout_signature` (template_service.py lines 98-109), up to
the final md5 serialisation. -/
def generate_layout_signature (text : String) : LayoutStructure :=
  let cs := text.toList
  let lines := splitNl cs
  { total_lines := lines.length
    avg_line_length :=
      if lines.isEmpty then 0
      else ((lines.map List.length).sum : ℚ) / (lines.length : ℚ)
    has_tables := lines.any (fun l => 2 ≤ l.count '|')
    has_amounts := hasDollarAmount cs
    has_dates := hasDateToken cs }

/-! ## Keyword and layout sub-scores -/

/-- Embedding of `_match_keywords` (lines 86-90). -/
def match_keywords (text : String) (keywords : List String) : ℚ :=
  if keywords.isEmpty then 0
  else
    let hits :=
      (keywords.filter (fun k => containsCaseless (k.toList.map lowerCh) (text.toList.map lowerCh))).length
    (hits : ℚ) / (keywords.length : ℚ)

/-- Embedding of `_match_layout` (lines 92-96): 1.0 on signature equality, else 0.5. -/
def match_layout (text : String) (sig : LayoutStructure) : ℚ :=
  if generate_layout_signature text = sig then 1 else 1 / 2

/-! ## Data model (`app/db/models.py`) -/

/-- The closed `DocumentType` enum. -/
inductive DocumentType where
  | invoice | receipt | bank_statement | purchase_order | sales_order
  | delivery_note | quote | contract | tax_document | other
  deriving DecidableEq, Repr

/-- The `.value` string of each enum member. -/
def DocumentType.value : DocumentType → String
  | .invoice => "invoice"
  | .receipt => "receipt"
  | .bank_statement => "bank_statement"
  | .purchase_order => "purchase_order"
  | .sales_order => "sales_order"
  | .delivery_note => "delivery_note"
  | .quote => "quote"
  | .contract => "contract"
  | .tax_document => "tax_document"
  | .other => "other"

/-- Field types appearing in template schemas (`'float' | 'date' | 'string'`). -/
inductive FieldType where
  | float | date | string
  deriving DecidableEq, Repr

/-- One field descriptor of a template schema, with the defaults of
`field.get('patterns', [])` and `field.get('type', 'string')` applied. -/
structure Field where
  name : String
  ftype : FieldType
  required : Bool
  patterns : List String
  deriving DecidableEq, Repr

/-- A dynamically-typed extracted value (Python puts floats and strings in
the same dict). -/
inductive Value where
  | num (q : ℚ)
  | str (s : String)
  deriving DecidableEq, Repr

/-- A `DocumentTemplate` row.  `template_schema` is a JSON column: `none`
models SQL NULL / an empty dict (both falsy), `some none` models a non-empty
dict lacking the `'fields'` key, `some (some fs)` a dict with
`schema['fields'] = fs`.  `layout_signature` holds the structural record
(see `LayoutStructure`); `none` models NULL / the empty string (falsy). -/
structure Template where
  id : Nat
  name : String
  document_type : DocumentType
  template_schema : Option (Option (List Field))
  keywords : List String
  vendor_pattern : Option String
  layout_signature : Option LayoutStructure
  sample_documents : List Nat
  usage_count : Nat
  success_count : Nat
  confidence_score : ℚ
  created_from_document_id : Option Nat
  is_active : Bool

/-- Python truthiness of the `vendor_pattern` column (`None` and `""` are
falsy). -/
def vendorTruthy : Option String → Bool
  | none => false
  | some p => p ≠ ""

/-! ## Template match scoring (`_calculate_template_match_score`, lines
56-84).  `oracle vp text` models `re.search(vp, text, re.IGNORECASE) is not
None` for the arbitrary user-supplied vendor regex `vp`. -/

/-- The `scores` list built by lines 67-82: one optional term per matching
aid (the `if template.keywords:` test is Python truthiness, i.e. non-empty;
likewise for `vendor_pattern` and `layout_signature`). -/
def scoreTerms (oracle : String → String → Bool)
    (document_text : String) (template : Template) : List ℚ :=
  (match template.keywords with
   | [] => []
   | _ :: _ => [match_keywords document_text template.keywords * (2 / 5)]) ++
  (match template.vendor_pattern with
   | none => []
   | some vp =>
     if vp = "" then []
     else [(if oracle vp document_text then 1 else 0) * (3 / 10)]) ++
  (match template.layout_signature with
   | none => []
   | some sig => [match_layout document_text sig * (3 / 10)])

def calculate_template_match_score
    (oracle : String → String → Bool)
    (document_text : String) (template : Template) : ℚ :=
  if (scoreTerms oracle document_text template).isEmpty then 0
  else (scoreTerms oracle document_text template).sum /
    ((scoreTerms oracle document_text template).length : ℚ)

/-- The selection loop of `find_matching_template` (lines 40-48): running
best template and best score, initialised to `(None, 0.0)`. -/
def bestLoop (oracle : String → String → Bool) (text : String) :
    List Template → Option Template × ℚ → Option Template × ℚ
  | [], acc => acc
  | t :: ts, acc =>
    if calculate_template_match_score oracle text t > acc.2 then
      bestLoop oracle text ts (some t, calculate_template_match_score oracle text t)
    else bestLoop oracle text ts acc

/-- Stable insertion into a list sorted by descending `confidence_score`
(models the SQL `ORDER BY confidence_score DESC`). -/
def insertByConf (t : Template) : List Template → List Template
  | [] => [t]
  | h :: rest =>
    if t.confidence_score > h.confidence_score then t :: h :: rest
    else h :: insertByConf t rest

def sortByConfDesc (l : List Template) : List Template :=
  l.foldr insertByConf []

/-- The candidate list of lines 32-35: active templates of the requested
type, ordered by descending stored confidence. -/
def candidateTemplates (dt : DocumentType) (db : List Template) : List Template :=
  sortByConfDesc (db.filter (fun t => t.document_type = dt && t.is_active))

/-- The `(best_template, best_score)` pair computed by the loop. -/
def bestCandidate (oracle : String → String → Bool) (text : String)
    (dt : DocumentType) (db : List Template) : Option Template × ℚ :=
  bestLoop oracle text (candidateTemplates dt db) (none, 0)

/-- Embedding of `find_matching_template` (lines 16-54). -/
def find_matching_template (oracle : String → String → Bool) (text : String)
    (dt : DocumentType) (db : List Template) : Option Template :=
  if (candidateTemplates dt db).isEmpty then none
  else if (bestCandidate oracle text dt db).2 > 3 / 5 then
    (bestCandidate oracle text dt db).1
  else none

/-! ## Bounds on the match score -/

theorem match_keywords_nonneg (text : String) (ks : List String) :
    0 ≤ match_keywords text ks := by
  unfold match_keywords
  split
  · exact le_refl 0
  · exact div_nonneg (Nat.cast_nonneg _) (Nat.cast_nonneg _)

theorem match_keywords_le_one (text : String) (ks : List String) :
    match_keywords text ks ≤ 1 := by
  unfold match_keywords
  split
  · exact zero_le_one
  · rename_i hne
    have hlen : 0 < ks.length := by
      cases ks with
      | nil => simp at hne
      | cons a l => simp
    have hpos : (0 : ℚ) < (ks.length : ℚ) := by exact_mod_cast hlen
    rw [div_le_one hpos]
    exact_mod_cast List.length_filter_le _ ks

theorem list_sum_le_mul (l : List ℚ) (b : ℚ) (h : ∀ x ∈ l, x ≤ b) :
    l.sum ≤ (l.length : ℚ) * b := by
  induction l with
  | nil => simp
  | cons x t ih =>
    have hx : x ≤ b := h x (List.mem_cons_self x t)
    have ht : t.sum ≤ (t.length : ℚ) * b := ih (fun y hy => h y (List.mem_cons_of_mem x hy))
    simp only [List.sum_cons, List.length_cons]
    push_cast
    calc x + t.sum ≤ b + (t.length : ℚ) * b := add_le_add hx ht
      _ = ((t.length : ℚ) + 1) * b := by ring

/-- Every term appended to the `scores` list is at most 0.4: the keyword
term is a `[0,1]` sub-score times 0.4, the vendor term is 0 or 0.3, the
layout term is 0.15 or 0.3. -/
theorem score_terms_le (oracle : String → String → Bool) (text : String)
    (t : Template) (x : ℚ) (hx : x ∈ scoreTerms oracle text t) :
    x ≤ 2 / 5 := by
  unfold scoreTerms at hx
  rcases List.mem_append.mp hx with h12 | h4
  · rcases List.mem_append.mp h12 with h1 | h3
    · cases hk : t.keywords with
      | nil => simp [hk] at h1
      | cons a l =>
        simp only [hk, List.mem_singleton] at h1
        subst h1
        have hle := match_keywords_le_one text (a :: l)
        have hge := match_keywords_nonneg text (a :: l)
        nlinarith
    · cases hv : t.vendor_pattern with
      | none => simp [hv] at h3
      | some vp =>
        simp only [hv] at h3
        by_cases hvp : vp = ""
        · simp [if_pos hvp] at h3
        · simp only [if_neg hvp, List.mem_singleton] at h3
          subst h3
          by_cases ho : oracle vp text <;> simp [ho] <;> norm_num
  · cases hl : t.layout_signature with
    | none => simp [hl] at h4
    | some sig =>
      simp only [hl, List.mem_singleton] at h4
      subst h4
      unfold match_layout
      split <;> norm_num

/-- The final match score never exceeds 0.4: it is the arithmetic mean of
terms each at most 0.4. -/
theorem score_le_two_fifths (oracle : String → String → Bool) (text : String)
    (t : Template) :
    calculate_template_match_score oracle text t ≤ 2 / 5 := by
  unfold calculate_template_match_score
  split
  · norm_num
  · rename_i hne
    have hnil : scoreTerms oracle text t ≠ [] := by
      intro h
      rw [h] at hne
      simp at hne
    have hlen : 0 < ((scoreTerms oracle text t).length : ℚ) := by
      exact_mod_cast List.length_pos.mpr hnil
    rw [div_le_iff₀ hlen]
    have hsum : (scoreTerms oracle text t).sum ≤
        ((scoreTerms oracle text t).length : ℚ) * (2 / 5) :=
      list_sum_le_mul _ (2 / 5) (fun x hx => score_terms_le oracle text t x hx)
    linarith

/-- The running best score of the selection loop stays at most 0.4. -/
theorem bestLoop_snd_le (oracle : String → String → Bool) (text : String)
    (ts : List Template) (acc : Option Template × ℚ) (h : acc.2 ≤ 2 / 5) :
    (bestLoop oracle text ts acc).2 ≤ 2 / 5 := by
  induction ts generalizing acc with
  | nil => exact h
  | cons t rest ih =>
    unfold bestLoop
    split
    · exact ih (some t, calculate_template_match_score oracle text t)
        (score_le_two_fifths oracle text t)
    · exact ih acc h

/-- The loop keeps `best_score` equal to the score of `best_template`
whenever the latter is set. -/
theorem bestLoop_fst_score (oracle : String → String → Bool) (text : String)
    (ts : List Template) (acc : Option Template × ℚ)
    (h : ∀ u, acc.1 = some u → acc.2 = calculate_template_match_score oracle text u) :
    ∀ u, (bestLoop oracle text ts acc).1 = some u →
      (bestLoop oracle text ts acc).2 = calculate_template_match_score oracle text u := by
  induction ts generalizing acc with
  | nil => exact h
  | cons t rest ih =>
    unfold bestLoop
    split
    · exact ih (some t, calculate_template_match_score oracle text t)
        (fun u hu => by
          simp only at hu
          rw [Option.some.injEq] at hu
          subst hu
          rfl)
    · exact ih acc h

theorem bestCandidate_snd_le (oracle : String → String → Bool) (text : String)
    (dt : DocumentType) (db : List Template) :
    (bestCandidate oracle text dt db).2 ≤ 2 / 5 :=
  bestLoop_snd_le oracle text _ (none, 0) (by norm_num)

/-- The function `find_matching_template` always answers `None`: the best score is at
most 0.4, which never clears the strict 0.6 threshold. -/
theorem find_matching_template_none (oracle : String → String → Bool)
    (text : String) (dt : DocumentType) (db : List Template) :
    find_matching_template oracle text dt db = none := by
  unfold find_matching_template
  split
  · rfl
  · have hle := bestCandidate_snd_le oracle text dt db
    have hng : ¬((bestCandidate oracle text dt db).2 > 3 / 5) := by
      intro hgt
      linarith
    simp only [hng, if_false]

/-! ## Field pattern matcher (`_extract_field`, lines 156-193)

The three regexes built at lines 170-175 are compiled by hand.  In each of
them the escaped label is followed by an optional separator gap and a
capture group:

* float:  gap `\s* [:]* \s* \$? \s*`, group `[\d,]+\.?\d*`.  Every gap
  character (whitespace, colon, dollar) is distinct from every possible
  group-start character (digit, comma), so the backtracking search reduces
  to maximal-munch component runs.
* date:   gap `\s* [:]* \s*`, group is the date token shape; same
  disjointness argument (the group starts with a digit).
* string: gap `\s* [:]* \s*`, group `[^\n]+`.  Here whitespace is *not*
  disjoint from the group class, so the engine's backtracking order
  (longest first component first) is enumerated explicitly.
-/

/-- The float value at this gap+group position, if any (after the label). -/
def floatGroupAt (cs : List Char) : Option (List Char) :=
  match spanP isWs cs with
  | (_, r1) =>
    match spanP (fun c => c = ':') r1 with
    | (_, r2) =>
      match spanP isWs r2 with
      | (_, r3) =>
        match (match r3 with | '$' :: t => t | other => other) with
        | r4 =>
          match spanP isWs r4 with
          | (_, r5) =>
            match spanP (fun c => isDigitCh c || c = ',') r5 with
            | ([], _) => none
            | (d :: ds, r6) =>
              match r6 with
              | '.' :: r7 => some ((d :: ds) ++ '.' :: (spanP isDigitCh r7).1
                )
              | _ => some (d :: ds)

/-- The date value at this gap+group position, if any. -/
def dateGroupAt (cs : List Char) : Option (List Char) :=
  match spanP isWs cs with
  | (_, r1) =>
    match spanP (fun c => c = ':') r1 with
    | (_, r2) =>
      match spanP isWs r2 with
      | (_, r3) => dateTokenAt r3

/-- Greedy-first enumeration of the suffixes reachable by consuming a
(possibly empty) run of characters satisfying `p`: longest consumption
first, consuming nothing last. -/
def runOpts (p : Char → Bool) : List Char → List (List Char)
  | [] => [[]]
  | c :: cs =>
    if p c then runOpts p cs ++ [c :: cs] else [c :: cs]

/-- The string value (`[^\n]+`, greedy) at this gap+group position, if any,
exploring the gap's `\s* [:]* \s*` alternatives in the engine's
backtracking order. -/
def stringGroupAt (cs : List Char) : Option (List Char) :=
  firstSome
    (fun r1 =>
      firstSome
        (fun r2 =>
          firstSome
            (fun r3 =>
              match r3 with
              | [] => none
              | c :: rest =>
                if c = '\n' then none
                else some (c :: (spanP (fun d => ¬d = '\n') rest).1))
            (runOpts isWs r2))
        (runOpts (fun c => c = ':') r1))
    (runOpts isWs cs)

/-- Dispatch to the per-type group matcher. -/
def groupAt (ftype : FieldType) : List Char → Option (List Char)
  | cs =>
    match ftype with
    | .float => floatGroupAt cs
    | .date => dateGroupAt cs
    | .string => stringGroupAt cs

/-- Model of `re.search` for one of the three pattern regexes: leftmost position at
which the case-insensitive label is followed by a successful gap+group
match; yields `match.group(1)`. -/
def searchValue (ftype : FieldType) (label : List Char) : List Char → Option (List Char)
  | [] =>
    match matchCaseless label [] with
    | some rest => groupAt ftype rest
    | none => none
  | c :: cs =>
    match matchCaseless label (c :: cs) with
    | some rest =>
      match groupAt ftype rest with
      | some g => some g
      | none => searchValue ftype label cs
    | none => searchValue ftype label cs

/-- Value of digit characters as a natural number. -/
def natOfDigits (cs : List Char) : Nat :=
  cs.foldl (fun acc c => 10 * acc + (c.toNat - '0'.toNat)) 0

/-- Python `float(s)` after `s.replace(',', '')`, for the shapes the float
group can produce: `digits* '.'? digits*`, succeeding iff at least one
digit is present. -/
def parseFloatStr (cs : List Char) : Option ℚ :=
  match spanP isDigitCh (cs.filter (fun c => ¬c = ',')) with
  | (intDs, rest) =>
    match rest with
    | [] => if intDs.isEmpty then none else some (natOfDigits intDs : ℚ)
    | '.' :: fracPart =>
      if fracPart.all isDigitCh then
        if intDs.isEmpty && fracPart.isEmpty then none
        else some ((natOfDigits intDs : ℚ) +
          (natOfDigits fracPart : ℚ) / ((10 : ℚ) ^ fracPart.length))
      else none
    | _ => none

/-- Per-field confidence constant of lines 185-191. -/
def confOf : FieldType → ℚ
  | .float => 9 / 10
  | .date => 9 / 10
  | .string => 4 / 5

/-- One iteration of the `for pattern in patterns` loop (lines 168-191):
regex search, `.strip()`, then type-directed conversion.  A float whose
shape matched but whose text fails `float(...)` yields `none` (the loop's
`continue`). -/
def tryPattern (text : String) (pattern : String) (ftype : FieldType) :
    Option (Value × ℚ) :=
  match searchValue ftype pattern.toList text.toList with
  | none => none
  | some g =>
    match ftype with
    | .float =>
      match parseFloatStr (stripPy g) with
      | some q => some (.num q, 9 / 10)
      | none => none
    | .date => some (.str ⟨stripPy g⟩, 9 / 10)
    | .string => some (.str ⟨stripPy g⟩, 4 / 5)

/-- Embedding of `_extract_field`: first pattern producing a parseable match wins; if
none does, `(None, 0.0)`. -/
def extract_field (text : String) : List String → FieldType → Option Value × ℚ
  | [], _ => (none, 0)
  | p :: ps, ftype =>
    match tryPattern text p ftype with
    | some (v, c) => (some v, c)
    | none => extract_field text ps ftype

/-! ## Template extractor (`extract_with_template`, lines 111-154) -/

/-- The value returned by `extract_with_template`: either the bare empty
dict `{}` of the early return at line 130, or the shaped dict of lines
150-154. -/
inductive ExtractOut where
  | emptyDict
  | result (data : List (String × Value)) (confidence_scores : List (String × ℚ))
      (template_id : Nat)
  deriving DecidableEq

/-- Accessor `result.get('data')`. -/
def getData : ExtractOut → Option (List (String × Value))
  | .emptyDict => none
  | .result d _ _ => some d

/-- Whether the returned dict has a `'data'` key at all. -/
def hasDataKey : ExtractOut → Bool
  | .emptyDict => false
  | .result _ _ _ => true

/-- The field-collection loop of lines 134-148. -/
def collectFields (text : String) :
    List Field → List (String × Value) × List (String × ℚ) →
      List (String × Value) × List (String × ℚ)
  | [], acc => acc
  | f :: fs, acc =>
    match extract_field text f.patterns f.ftype with
    | (some v, c) =>
      collectFields text fs
        (insertKV acc.1 f.name v, insertKV acc.2 f.name c)
    | (none, _) => collectFields text fs acc

/-- Embedding of `extract_with_template`.  A missing/falsy `template_schema` or a schema
without a `'fields'` key returns the bare `extracted_data = {}`. -/
def extract_with_template (text : String) (t : Template) : ExtractOut :=
  match t.template_schema with
  | none => .emptyDict
  | some none => .emptyDict
  | some (some fields) =>
    .result (collectFields text fields ([], [])).1
      (collectFields text fields ([], [])).2 t.id

/-! ## Orchestrator decision branch (`processing_service.py`, lines 114-136)

After `find_matching_template` returned a template, the orchestrator runs
`extract_with_template` and accepts its result as final iff
`template_result.get('data')` is truthy (the dict is present and
non-empty); otherwise `structured_data` stays `None` and the LLM fallback
of line 135 runs. -/

/-- Truthiness of `template_result.get('data')`. -/
def dataTruthy (r : ExtractOut) : Bool :=
  match getData r with
  | none => false
  | some d => ¬d.isEmpty

/-- Outcome of the decision branch: what `structured_data`,
`extraction_method` and `template_id` hold after line 136, whether
`update_template_stats(..., success=True)` was called, and whether the LLM
fallback is entered. -/
structure BranchOutcome where
  structured_data : Option (List (String × Value))
  extraction_method : String
  template_id : Option Nat
  stats_success_called : Bool
  llm_called : Bool
  deriving DecidableEq

/-- Lines 114-136 of `process_document`, given that a template with id
`tid` was found and template extraction returned `r`. -/
def templateBranch (tid : Nat) (r : ExtractOut) : BranchOutcome :=
  if dataTruthy r then
    { structured_data := getData r
      extraction_method := "template"
      template_id := some tid
      stats_success_called := true
      llm_called := false }
  else
    { structured_data := none
      extraction_method := "llm"
      template_id := none
      stats_success_called := false
      llm_called := true }

/-! ## Template statistics (`update_template_stats`, lines 329-348) -/

/-- The pure state change applied to the fetched template row:
`usage_count += 1`, `success_count += 1` when `success`, then
`confidence_score = success_count / usage_count if usage_count > 0 else
0.0`. -/
def update_template_stats (t : Template) (success : Bool) : Template :=
  { t with
    usage_count := t.usage_count + 1
    success_count := if success then t.success_count + 1 else t.success_count
    confidence_score :=
      if 0 < t.usage_count + 1 then
        ((if success then t.success_count + 1 else t.success_count : Nat) : ℚ) /
          ((t.usage_count + 1 : Nat) : ℚ)
      else 0 }

/-! ## Template learner (`create_template_from_extraction` and helpers) -/

/-- Python `str.title()` (ASCII): the first letter of every alphabetic run
is upper-cased, the rest lower-cased. -/
def titleGo : Bool → List Char → List Char
  | _, [] => []
  | prevAlpha, c :: cs =>
    if isAlphaCh c then
      (if prevAlpha then lowerCh c else upperCh c) :: titleGo true cs
    else c :: titleGo false cs

def pythonTitle (s : String) : String :=
  ⟨titleGo false s.toList⟩

/-- Python `str(value)` for the values the learner receives: strings are
unchanged; floats print their decimal expansion, integers with a trailing
`.0`, as CPython renders the non-negative terminating-decimal floats the
claims use.  Long division on the numerator/denominator, digit by digit. -/
def fracDigits : Nat → Nat → Nat → List Char
  | 0, _, _ => []
  | _ + 1, 0, _ => []
  | fuel + 1, rem, den =>
    Char.ofNat ('0'.toNat + rem * 10 / den) :: fracDigits fuel (rem * 10 % den) den

def natDigits (n : Nat) : List Char :=
  Nat.toDigits 10 n

def pyFloatStr (q : ℚ) : String :=
  if q.den = 1 then ⟨natDigits q.num.toNat ++ ['.', '0']⟩
  else ⟨natDigits (q.num.toNat / q.den) ++ '.' ::
    fracDigits 64 (q.num.toNat % q.den) q.den⟩

def pyStr : Value → String
  | .str s => s
  | .num q => pyFloatStr q

/-- Characters admitted by the label class `[A-Za-z\s#]` of line 319. -/
def isLabelCh (c : Char) : Bool :=
  isAlphaCh c || isWs c || c = '#'

/-- One `finditer` attempt of the regex `([A-Za-z\s#]+)[:]*\s*<value>` at
this position: the group (which starts here) is tried longest-first, then
the colon and whitespace runs, then the case-insensitive literal value.
Returns the captured label and the suffix after the whole match. -/
def labelMatchAt (value : List Char) (cs : List Char) : Option (List Char × List Char) :=
  firstSome
    (fun k =>
      let g := cs.take k
      let r := cs.drop k
      firstSome
        (fun r1 =>
          firstSome
            (fun r2 =>
              match matchCaseless value r2 with
              | some rest => some (g, rest)
              | none => none)
            (runOpts isWs r1))
        (runOpts (fun c => c = ':') r))
    (((List.range (spanP isLabelCh cs).1.length).map (· + 1)).reverse)

/-- Model of `re.finditer` over the text: scan positions left to right, and continue
after the end of each (non-overlapping) match.  `fuel` bounds the scan by
the text length. -/
def findIterLabels (value : List Char) : Nat → List Char → List (List Char)
  | 0, _ => []
  | _ + 1, [] =>
    (match labelMatchAt value [] with
     | some (g, _) => [g]
     | none => [])
  | fuel + 1, c :: cs =>
    match labelMatchAt value (c :: cs) with
    | some (g, rest) => g :: findIterLabels value fuel rest
    | none => findIterLabels value fuel cs

/-- Deduplication keeping first occurrences (models `list(set(...))`; see
the header note on CPython set order). -/
def dedupGo (seen : List (List Char)) : List (List Char) → List (List Char)
  | [] => []
  | x :: xs => if seen.contains x then dedupGo seen xs else x :: dedupGo (x :: seen) xs

def dedupKeepFirst (l : List (List Char)) : List (List Char) :=
  dedupGo [] l

/-- Embedding of `_find_value_patterns` (lines 314-327): labels preceding the value,
stripped, kept when `2 < len < 30`. -/
def find_value_patterns (text : String) (value : String) : List String :=
  (dedupKeepFirst
    (((findIterLabels value.toList (text.toList.length + 1) text.toList).map stripPy).filter
      (fun l => 2 < l.length && l.length < 30))).map (fun l => ⟨l⟩)

/-- The seed keywords table of lines 252-258. -/
def typeKeywords : DocumentType → List String
  | .invoice => ["invoice", "bill", "due", "payment", "subtotal"]
  | .receipt => ["receipt", "paid", "purchased", "transaction"]
  | .purchase_order => ["purchase order", "PO", "quantity", "unit price"]
  | .sales_order => ["sales order", "SO", "order date", "ship to"]
  | .quote => ["quote", "quotation", "estimate", "valid until"]
  | _ => []

/-- Embedding of `_extract_keywords` (lines 249-277): seed keywords present in the text,
then the first 10 lines whose first word starts with an upper-case letter
(the line, stripped, truncated to 50 chars), deduplicated, capped at 10.
`words[0][0]` of Python's `line.split()` is the first non-whitespace
character of the line, and `words` is non-empty iff one exists. -/
def extract_keywords (text : String) (dt : DocumentType) : List String :=
  let lowered := text.toList.map lowerCh
  let seeds := (typeKeywords dt).filter
    (fun k => containsCaseless (k.toList.map lowerCh) lowered)
  let headerLines :=
    ((splitNl text.toList).take 10).filterMap
      (fun line =>
        match line.dropWhile isWs with
        | [] => none
        | c :: _ => if isUpperCh c then some ((stripPy line).take 50) else none)
  ((dedupKeepFirst ((seeds.map String.toList) ++ headerLines)).take 10).map
    (fun l => ⟨l⟩)

/-- The date-ish field names of line 291. -/
def dateFieldNames : List String := ["date", "transaction_date", "invoice_date"]

/-- Embedding of `_generate_template_schema` (lines 279-312): per extracted field, infer
the type, find up to 3 label patterns preceding the rendered value. -/
def generate_template_schema (extracted_data : List (String × Value))
    (document_text : String) : List Field :=
  extracted_data.map (fun fv =>
    { name := fv.1
      ftype :=
        match fv.2 with
        | .num _ => .float
        | .str _ => if fv.1 ∈ dateFieldNames then .date else .string
      required := fv.1 ∈ ["amount", "date", "vendor"]
      patterns := (find_value_patterns document_text (pyStr fv.2)).take 3 })

/-- Embedding of `_get_template_count` (lines 243-247): templates of the type, active or
not. -/
def get_template_count (db : List Template) (dt : DocumentType) : Nat :=
  (db.filter (fun t => t.document_type = dt)).length

/-- Embedding of `create_template_from_extraction` (lines 195-241).  The database is the
`db` parameter; the row id is assigned by the store and is irrelevant to
every claim (fixed to 0 here); `is_active` takes its column default
`True`, `vendor_pattern` is not set by the learner (NULL). -/
def create_template_from_extraction (db : List Template) (document_id : Nat)
    (dt : DocumentType) (extracted_data : List (String × Value))
    (document_text : String) : Template :=
  { id := 0
    name := pythonTitle dt.value ++ " Template #" ++
      Nat.repr (get_template_count db dt + 1)
    document_type := dt
    template_schema := some (some (generate_template_schema extracted_data document_text))
    keywords := extract_keywords document_text dt
    vendor_pattern := none
    layout_signature := some (generate_layout_signature document_text)
    sample_documents := [document_id]
    usage_count := 1
    success_count := 1
    confidence_score := 1
    created_from_document_id := some document_id
    is_active := true }

/-! ## Helper lemmas for the extraction loop -/

/-- A successful loop iteration always carries the per-type confidence
constant. -/
theorem tryPattern_conf (text p : String) (ftype : FieldType) (v : Value) (c : ℚ)
    (h : tryPattern text p ftype = some (v, c)) : c = confOf ftype := by
  unfold tryPattern at h
  cases hs : searchValue ftype p.toList text.toList with
  | none => rw [hs] at h; exact absurd h (by simp)
  | some g =>
    rw [hs] at h
    cases ftype with
    | float =>
      simp only at h
      cases hp : parseFloatStr (stripPy g) with
      | none => rw [hp] at h; exact absurd h (by simp)
      | some q =>
        rw [hp] at h
        simp only [Option.some.injEq, Prod.mk.injEq] at h
        exact h.2.symm
    | date =>
      simp only [Option.some.injEq, Prod.mk.injEq] at h
      exact h.2.symm
    | string =>
      simp only [Option.some.injEq, Prod.mk.injEq] at h
      exact h.2.symm

/-- If no pattern matches, the field resolves to `(None, 0.0)`. -/
theorem extract_field_all_none (text : String) (ps : List String) (ftype : FieldType)
    (h : ∀ s ∈ ps, tryPattern text s ftype = none) :
    extract_field text ps ftype = (none, 0) := by
  induction ps with
  | nil => rfl
  | cons p rest ih =>
    unfold extract_field
    rw [h p (List.mem_cons_self p rest)]
    exact ih (fun s hs => h s (List.mem_cons_of_mem p hs))

/-- First-match: the first pattern that produces a parseable match decides
the result; the patterns after it are never consulted. -/
theorem extract_field_first (text : String) (ps1 ps2 : List String) (p : String)
    (ftype : FieldType) (v : Value) (c : ℚ)
    (h1 : ∀ s ∈ ps1, tryPattern text s ftype = none)
    (h2 : tryPattern text p ftype = some (v, c)) :
    extract_field text (ps1 ++ p :: ps2) ftype = (some v, c) := by
  induction ps1 with
  | nil =>
    rw [List.nil_append]
    unfold extract_field
    rw [h2]
  | cons q rest ih =>
    rw [List.cons_append]
    unfold extract_field
    rw [h1 q (List.mem_cons_self q rest)]
    exact ih (fun s hs => h1 s (List.mem_cons_of_mem q hs))

/-! ## Statistics-update lemmas -/

/-- Unfolded effect of a call sequence: usage grows by the number of calls,
success by the number of `True` calls. -/
theorem foldl_update_counts (calls : List Bool) (t : Template) :
    (calls.foldl update_template_stats t).usage_count = t.usage_count + calls.length ∧
    (calls.foldl update_template_stats t).success_count =
      t.success_count + calls.count true := by
  induction calls generalizing t with
  | nil => simp
  | cons b bs ih =>
    have h := ih (update_template_stats t b)
    simp only [List.foldl_cons]
    constructor
    · rw [h.1]
      simp only [update_template_stats, List.length_cons]
      omega
    · rw [h.2]
      cases b with
      | false => simp [update_template_stats, List.count_cons]
      | true =>
        simp [update_template_stats, List.count_cons]
        omega

/-- After a non-empty call sequence the stored confidence is exactly the
success/usage ratio of the final counters. -/
theorem foldl_update_confidence (calls : List Bool) (t : Template)
    (hne : calls ≠ []) :
    (calls.foldl update_template_stats t).confidence_score =
      ((calls.foldl update_template_stats t).success_count : ℚ) /
        ((calls.foldl update_template_stats t).usage_count : ℚ) := by
  induction calls generalizing t with
  | nil => exact absurd rfl hne
  | cons b bs ih =>
    cases hbs : bs with
    | nil =>
      subst hbs
      simp only [List.foldl_cons, List.foldl_nil]
      simp [update_template_stats]
    | cons b' bs' =>
      subst hbs
      rw [List.foldl_cons]
      exact ih (update_template_stats t b) (by simp)

/-! ## Concrete fixtures used by the claims -/

/-- A vendor-regex oracle (any function will do for the concrete
evaluations: the templates involved carry no vendor pattern). -/
def noOracle : String → String → Bool := fun _ _ => false

/-- A keywords-only template: the only matching aid is the keyword list. -/
def demoKwTemplate : Template :=
  { id := 1
    name := "Kw"
    document_type := .invoice
    template_schema := none
    keywords := ["invoice"]
    vendor_pattern := none
    layout_signature := none
    sample_documents := []
    usage_count := 0
    success_count := 0
    confidence_score := 0
    created_from_document_id := none
    is_active := true }

/-- A template whose stored schema is missing entirely (SQL NULL). -/
def demoNoSchemaTemplate : Template :=
  { demoKwTemplate with id := 7, name := "NoSchema", template_schema := none }

/-- A template row with fresh counters, for the statistics claim. -/
def demoStatsTemplate : Template :=
  { demoKwTemplate with id := 9, usage_count := 0, success_count := 0 }

/-- A template-extraction result that resolved `vendor` but not `amount`. -/
def demoVendorOnlyResult : ExtractOut :=
  .result [("vendor", .str "Acme Corp")] [("vendor", 4 / 5)] 3

/-- Source text for the learner round-trip: the three extracted values
appear verbatim, each preceded by a label. -/
def demoText : String :=
  "Invoice 99\nAmount: 123.45\nDate: 2024-01-15\nVendor: Acme Corp"

/-- The amount 123.45 as a rational in lowest terms, given as an explicit
structure literal so that its numerator and denominator are definitionally
transparent. -/
def demoAmount : ℚ := ⟨2469, 20, by norm_num, by norm_num⟩

/-- The LLM field map of the round-trip scenario. -/
def demoData : List (String × Value) :=
  [("amount", .num demoAmount), ("date", .str "2024-01-15"),
   ("vendor", .str "Acme Corp")]

/-- Text for the first-match witness: `Ref` matches the float shape but
fails `float(...)` (the group is a lone comma), `Total` does not match at
all, `Amount` parses. -/
def demoFieldText : String := "Ref: , junk\nTotal x\nAmount: 50.00"

/-- Boolean rendering of "the returned template, if any, scored strictly
above the threshold". -/
def returnedAbove (oracle : String → String → Bool) (text : String) :
    Option Template → Bool
  | none => true
  | some t => decide (3 / 5 < calculate_template_match_score oracle text t)

/-! ## Claims -/

/-- C1: the spec says the final match score is the weighted sum divided by
the **sum of the weights actually present**, so a keywords-only template
with a perfect keyword sub-score would score 1.0.  The code instead divides
by the *number* of present sub-scores (`sum(scores) / len(scores)`): on the
failing input — a keywords-only template whose keyword sub-score is 1 —
it computes 0.4, not the keyword sub-score.  This theorem evaluates the
embedded code at that input. -/
theorem claim_C1_code_divergence :
    match_keywords "Invoice 99" ["invoice"] = 1 ∧
    calculate_template_match_score noOracle "Invoice 99" demoKwTemplate = 2 / 5 ∧
    calculate_template_match_score noOracle "Invoice 99" demoKwTemplate ≠
      match_keywords "Invoice 99" ["invoice"] := by
  have hk : match_keywords "Invoice 99" ["invoice"] = ((1 : ℕ) : ℚ) / ((1 : ℕ) : ℚ) := rfl
  have hc : calculate_template_match_score noOracle "Invoice 99" demoKwTemplate =
      (match_keywords "Invoice 99" ["invoice"] * (2 / 5) + 0) / ((1 : ℕ) : ℚ) := rfl
  rw [hc, hk]
  norm_num

/-- C2: the match score never exceeds 0.4 — each appended term is a
sub-score in [0,1] times a weight at most 0.4 and the result is their
arithmetic mean — so `find_matching_template`, whose acceptance requires a
score strictly above 0.6, returns `None` on every input. -/
theorem claim_C2_score_bound_no_match :
    (∀ (oracle : String → String → Bool) (text : String) (t : Template),
      calculate_template_match_score oracle text t ≤ 2 / 5) ∧
    (∀ (oracle : String → String → Bool) (text : String) (dt : DocumentType)
      (db : List Template), find_matching_template oracle text dt db = none) :=
  ⟨score_le_two_fifths, find_matching_template_none⟩

/-- C3: if the best candidate's score is at most 0.6 the result is
no-match, and whenever a template is returned its score is strictly above
0.6. -/
theorem claim_C3_threshold (oracle : String → String → Bool) (text : String)
    (dt : DocumentType) (db : List Template)
    (h : (bestCandidate oracle text dt db).2 ≤ 3 / 5) :
    find_matching_template oracle text dt db = none ∧
    returnedAbove oracle text (find_matching_template oracle text dt db) = true := by
  have hnone : find_matching_template oracle text dt db = none := by
    unfold find_matching_template
    split
    · rfl
    · have hng : ¬((bestCandidate oracle text dt db).2 > 3 / 5) := by
        intro hgt
        linarith
      simp only [hng, if_false]
  exact ⟨hnone, by rw [hnone]; rfl⟩

theorem claim_C3_threshold_witness :
    (bestCandidate noOracle "Invoice 99" DocumentType.invoice []).2 ≤ 3 / 5 ∧
    (find_matching_template noOracle "Invoice 99" DocumentType.invoice [] = none ∧
      returnedAbove noOracle "Invoice 99"
        (find_matching_template noOracle "Invoice 99" DocumentType.invoice []) = true) :=
  ⟨by rw [show (bestCandidate noOracle "Invoice 99" DocumentType.invoice []).2 = 0 from rfl]
      norm_num,
   claim_C3_threshold noOracle "Invoice 99" DocumentType.invoice []
     (by rw [show (bestCandidate noOracle "Invoice 99" DocumentType.invoice []).2 = 0 from rfl]
         norm_num)⟩

/-- C4 counterexample: a template-extraction result that resolved `vendor`
but not `amount` is nevertheless accepted as final with
`method = "template"`, stats success recorded, and the LLM fallback is
*not* entered — the orchestrator's acceptance test is `get('data')`
truthiness, not the presence of a usable `amount`, refuting the claim at
this input. -/
theorem claim_C4_counterexample :
    (templateBranch 3 demoVendorOnlyResult).extraction_method = "template" ∧
    (templateBranch 3 demoVendorOnlyResult).stats_success_called = true ∧
    (templateBranch 3 demoVendorOnlyResult).llm_called = false ∧
    lookupKV ((getData demoVendorOnlyResult).getD []) "amount" = none := by
  refine ⟨by decide, by decide, by decide, by decide⟩

/-- C4 amended: the orchestrator accepts the template result as final with
`method = "template"` (and records a success against the template) iff the
result's `data` map is present and non-empty — any resolved field
suffices; only an empty or absent `data` map triggers the LLM fallback. -/
theorem claim_C4_amended (tid : Nat) (r : ExtractOut) :
    (templateBranch tid r).extraction_method =
      (if dataTruthy r then "template" else "llm") ∧
    (templateBranch tid r).stats_success_called = dataTruthy r ∧
    (templateBranch tid r).llm_called = !dataTruthy r ∧
    (templateBranch tid r).structured_data =
      (if dataTruthy r then getData r else none) ∧
    (templateBranch tid r).template_id =
      (if dataTruthy r then some tid else none) := by
  unfold templateBranch
  cases h : dataTruthy r <;> simp [h]

/-- C5: the field matcher is first-match over the ordered label list — the
first label yielding a parseable match decides value and confidence (0.9
float, 0.9 date, 0.8 string) and later labels are not consulted; a float
label whose shape matches but fails numeric parsing is a non-match (the
final conjunct); if every label is a non-match the result is `(None, 0.0)`. -/
theorem claim_C5_first_match (text : String) (ps1 ps2 : List String) (p : String)
    (ftype : FieldType) (v : Value) (c : ℚ) (q : String) (g : List Char)
    (h1 : ∀ s ∈ ps1, tryPattern text s ftype = none)
    (h2 : tryPattern text p ftype = some (v, c))
    (h3 : searchValue FieldType.float q.toList text.toList = some g)
    (h4 : parseFloatStr (stripPy g) = none) :
    extract_field text (ps1 ++ p :: ps2) ftype = (some v, c) ∧
    c = confOf ftype ∧
    extract_field text ps1 ftype = (none, 0) ∧
    tryPattern text q FieldType.float = none := by
  refine ⟨extract_field_first text ps1 ps2 p ftype v c h1 h2,
    tryPattern_conf text p ftype v c h2,
    extract_field_all_none text ps1 ftype h1, ?_⟩
  unfold tryPattern
  rw [h3]
  simp [h4]

theorem claim_C5_first_match_witness :
    extract_field demoFieldText (["Total"] ++ "Amount" :: []) FieldType.float =
      (some (.num 50), 9 / 10) ∧
    (9 / 10 : ℚ) = confOf FieldType.float ∧
    extract_field demoFieldText ["Total"] FieldType.float = (none, 0) ∧
    tryPattern demoFieldText "Ref" FieldType.float = none :=
  claim_C5_first_match demoFieldText ["Total"] [] "Amount" FieldType.float
    (.num 50) (9 / 10) "Ref" [','] (by decide)
    (by
      rw [show tryPattern demoFieldText "Amount" FieldType.float =
        some (.num (((50 : ℕ) : ℚ) + ((0 : ℕ) : ℚ) / (10 : ℚ) ^ 2), 9 / 10) from rfl]
      norm_num)
    (by decide) (by decide)

/-- C6: starting from `success_count ≤ usage_count`, any sequence of
`update_template_stats` calls preserves the invariant; usage is incremented
on every call, success only on `success=True` calls, and after a non-empty
sequence the stored confidence equals `success_count / usage_count` (the
code's `if usage_count > 0` guard makes the 0-usage value 0). -/
theorem claim_C6_stats_invariant (t : Template) (calls : List Bool)
    (h : t.success_count ≤ t.usage_count) :
    (calls.foldl update_template_stats t).usage_count = t.usage_count + calls.length ∧
    (calls.foldl update_template_stats t).success_count =
      t.success_count + calls.count true ∧
    (calls.foldl update_template_stats t).success_count ≤
      (calls.foldl update_template_stats t).usage_count ∧
    (calls = [] ∨
      (calls.foldl update_template_stats t).confidence_score =
        ((calls.foldl update_template_stats t).success_count : ℚ) /
          ((calls.foldl update_template_stats t).usage_count : ℚ)) := by
  have hc := foldl_update_counts calls t
  refine ⟨hc.1, hc.2, ?_, ?_⟩
  · rw [hc.1, hc.2]
    have : calls.count true ≤ calls.length := List.count_le_length true calls
    omega
  · cases hne : calls with
    | nil => exact Or.inl rfl
    | cons b bs =>
      exact Or.inr (hne ▸ foldl_update_confidence (b :: bs) t (by simp))

theorem claim_C6_stats_invariant_witness :
    (([true, false].foldl update_template_stats demoStatsTemplate).usage_count =
      demoStatsTemplate.usage_count + [true, false].length ∧
    ([true, false].foldl update_template_stats demoStatsTemplate).success_count =
      demoStatsTemplate.success_count + [true, false].count true ∧
    ([true, false].foldl update_template_stats demoStatsTemplate).success_count ≤
      ([true, false].foldl update_template_stats demoStatsTemplate).usage_count ∧
    ([true, false] = ([] : List Bool) ∨
      ([true, false].foldl update_template_stats demoStatsTemplate).confidence_score =
        (([true, false].foldl update_template_stats demoStatsTemplate).success_count : ℚ) /
          (([true, false].foldl update_template_stats demoStatsTemplate).usage_count : ℚ))) :=
  claim_C6_stats_invariant demoStatsTemplate [true, false] (by decide)

/-- C7 counterexample: for a template with no stored schema the extractor
returns the bare empty dict `{}` of line 130 — a value *without* the
declared `{data, confidence_scores, template_id}` shape — refuting the
shape part of the claim at this input. -/
theorem claim_C7_counterexample :
    extract_with_template "Invoice 99" demoNoSchemaTemplate = ExtractOut.emptyDict ∧
    hasDataKey (extract_with_template "Invoice 99" demoNoSchemaTemplate) = false := by
  refine ⟨by decide, by decide⟩

/-- C7 amended: for a template whose schema is missing or lacks the
`'fields'` key, `extract_with_template` does not raise and returns the bare
empty dict (it has no `data` key, rather than the declared shape with an
empty map); the orchestrator's `get('data')` on it is then falsy, so it
falls through to the LLM path rather than erroring. -/
theorem claim_C7_amended (text : String) (t : Template)
    (h : t.template_schema = none ∨ t.template_schema = some none) :
    extract_with_template text t = ExtractOut.emptyDict ∧
    getData (extract_with_template text t) = none ∧
    (templateBranch t.id (extract_with_template text t)).llm_called = true ∧
    (templateBranch t.id (extract_with_template text t)).extraction_method = "llm" := by
  have he : extract_with_template text t = ExtractOut.emptyDict := by
    unfold extract_with_template
    rcases h with h | h <;> rw [h]
  refine ⟨he, by rw [he]; rfl, by rw [he]; rfl, by rw [he]; rfl⟩

theorem claim_C7_amended_witness :
    extract_with_template "Invoice 99" demoNoSchemaTemplate = ExtractOut.emptyDict ∧
    getData (extract_with_template "Invoice 99" demoNoSchemaTemplate) = none ∧
    (templateBranch demoNoSchemaTemplate.id
      (extract_with_template "Invoice 99" demoNoSchemaTemplate)).llm_called = true ∧
    (templateBranch demoNoSchemaTemplate.id
      (extract_with_template "Invoice 99" demoNoSchemaTemplate)).extraction_method = "llm" :=
  claim_C7_amended "Invoice 99" demoNoSchemaTemplate (Or.inl rfl)

/-- C8 counterexample: the layout record of the empty string is *not* the
zero-lines record — `''.split('\n')` is `['']`, so the code computes 1
total line, refuting the claim's "signature for zero lines". -/
theorem claim_C8_counterexample :
    generate_layout_signature "" ≠
      { total_lines := 0, avg_line_length := 0, has_tables := false,
        has_amounts := false, has_dates := false } ∧
    (generate_layout_signature "").total_lines = 1 :=
  ⟨fun h => Nat.one_ne_zero (congrArg LayoutStructure.total_lines h), rfl⟩

/-- C8 amended: the layout signature generator is total — the line list is
never empty, so the average-length division is never taken over zero — and
on the empty string it returns the signature of the one-empty-line record:
1 total line, average length 0, and no table/amount/date flags. -/
theorem claim_C8_amended :
    generate_layout_signature "" =
      { total_lines := 1, avg_line_length := 0, has_tables := false,
        has_amounts := false, has_dates := false } ∧
    ∀ text : String, (splitNl text.toList).length ≠ 0 := by
  refine ⟨?_, fun text h => splitNl_ne_nil text.toList (List.length_eq_zero.mp h)⟩
  rw [show generate_layout_signature "" =
    ⟨1, ((0 : ℕ) : ℚ) / ((1 : ℕ) : ℚ), false, false, false⟩ from rfl]
  norm_num

/-- C9: round-trip — the template the learner creates from
`{amount: 123.45, date: "2024-01-15", vendor: "Acme Corp"}` and a source
text containing those values verbatim (each preceded by a label), applied
back to the same text, re-extracts `amount = 123.45`. -/
theorem claim_C9_roundtrip :
    lookupKV
      ((getData (extract_with_template demoText
        (create_template_from_extraction [] 42 DocumentType.invoice demoData
          demoText))).getD [])
      "amount" = some (Value.num demoAmount) := by
  have h : lookupKV
      ((getData (extract_with_template demoText
        (create_template_from_extraction [] 42 DocumentType.invoice demoData
          demoText))).getD [])
      "amount" =
      some (Value.num (((123 : ℕ) : ℚ) + ((45 : ℕ) : ℚ) / (10 : ℚ) ^ 2)) := rfl
  rw [h]
  have hval : (((123 : ℕ) : ℚ) + ((45 : ℕ) : ℚ) / (10 : ℚ) ^ 2) = demoAmount := by
    rw [← Rat.num_div_den demoAmount]
    show ((123 : ℕ) : ℚ) + ((45 : ℕ) : ℚ) / (10 : ℚ) ^ 2 =
      ((2469 : ℤ) : ℚ) / ((20 : ℕ) : ℚ)
    norm_num
  rw [hval]

/-- C10: every learner-created template starts with `usage_count = 1`,
`success_count = 1`, `confidence_score = 1.0`, `sample_documents` holding
exactly the source document id, and the deterministic name
`"<DocumentType title-case> Template #<N+1>"` with N the current count of
templates of that type (all templates of the type, active or not); e.g.
from an empty store an invoice template is named "Invoice Template #1". -/
theorem claim_C10_learner_fields (db : List Template) (docid : Nat)
    (dt : DocumentType) (data : List (String × Value)) (text : String) :
    (create_template_from_extraction db docid dt data text).usage_count = 1 ∧
    (create_template_from_extraction db docid dt data text).success_count = 1 ∧
    (create_template_from_extraction db docid dt data text).confidence_score = 1 ∧
    (create_template_from_extraction db docid dt data text).sample_documents = [docid] ∧
    (create_template_from_extraction db docid dt data text).name =
      pythonTitle dt.value ++ " Template #" ++
        Nat.repr (get_template_count db dt + 1) ∧
    (create_template_from_extraction [] 0 DocumentType.invoice data text).name =
      "Invoice Template #1" := by
  refine ⟨rfl, rfl, rfl, rfl, rfl, rfl⟩

end Email2KG
